import Mathlib

/-!
# Verification of `babyai_env_description.py`

Shallow embedding of the description-generation pipeline of
`src/babyai_env_description.py`: view partitioning, cell / region / frame
description, and the sequence-scoped prompt builder, together with proofs
about the claims of the specification.

Python-level behaviour is modelled explicitly:
* list indexing `l[i]` with an `int` index follows Python semantics
  (negative indices wrap, out-of-range raises `IndexError`);
* raised exceptions are values of `PyErr` carried in `Except`;
* `Counter` tallies preserve first-seen key order;
* `sorted` is a stable sort.
-/

namespace BabyaiEnvDescription

/-- Python exceptions that the embedded code can raise. -/
inductive PyErr where
  | indexError
  | keyError
  | typeError
  | attributeError
  | assertionError
  deriving Repr, DecidableEq

instance {ε α : Type} [DecidableEq ε] [DecidableEq α] : DecidableEq (Except ε α) :=
  fun x y =>
    match x, y with
    | .ok a, .ok b =>
      if h : a = b then .isTrue (by rw [h]) else .isFalse fun hc => h (Except.ok.inj hc)
    | .error a, .error b =>
      if h : a = b then .isTrue (by rw [h]) else .isFalse fun hc => h (Except.error.inj hc)
    | .ok _, .error _ => .isFalse fun hc => Except.noConfusion hc
    | .error _, .ok _ => .isFalse fun hc => Except.noConfusion hc

/-- The effective index of Python list indexing `l[i]` for an `int` index:
a negative index has the list length added to it. -/
def pyIndex {α : Type} (l : List α) (i : Int) : Int :=
  if i < 0 then i + l.length else i

/-- Python list indexing `l[i]` for an `int` index: the access succeeds iff
the effective index is in `[0, length)`; otherwise `IndexError` is raised. -/
def pyGet {α : Type} (l : List α) (i : Int) : Except PyErr α :=
  if h : 0 ≤ pyIndex l i ∧ pyIndex l i < (l.length : Int) then
    .ok (l.get ⟨(pyIndex l i).toNat, by omega⟩)
  else
    .error .indexError

/-- Python list indexing `l[i]` for a nonnegative (`Nat`) index. -/
def pyGetNat {α : Type} (l : List α) (i : Nat) : Except PyErr α :=
  if h : i < l.length then .ok (l.get ⟨i, h⟩) else .error .indexError

/-- Python substring test `pat in s` on strings. -/
def pyIn (pat s : String) : Bool :=
  decide (pat.data <:+: s.data)

/-- Modelled from the spec: the external vocabulary `OBJECTS` of
`babyai.common` (not under `src/`) — the fixed ordered object-name lookup
table of the BabyAI grid environment, containing at least the sentinels
`unseen`, `empty`, `floor` and the entities (`wall`, `door`, `key`, `ball`,
`box`, …) that the spec's examples use. -/
def OBJECTS : List String :=
  ["unseen", "empty", "wall", "floor", "door", "key", "ball", "box", "goal", "lava", "agent"]

/-- Modelled from the spec: the external vocabulary `COLORS` of
`babyai.common` — the fixed ordered color-name lookup table. -/
def COLORS : List String :=
  ["red", "green", "blue", "purple", "yellow", "grey"]

/-- Modelled from the spec: the external vocabulary `DOOR_STATES` of
`babyai.common` — the fixed ordered door-state lookup table. -/
def DOOR_STATES : List String :=
  ["open", "closed", "locked"]

/-- Modelled from the spec: the external constant `VIEW_SHAPE` of
`babyai.common` — the egocentric view shape; the shape assertion of
`make_view_partition` against the 7×7 template fixes it to `(7, 7)`. -/
def VIEW_SHAPE : Nat × Nat := (7, 7)

/-- `EGO_ROW = VIEW_SHAPE[0] - 1`. -/
def EGO_ROW : Nat := VIEW_SHAPE.1 - 1

/-- `EGO_COL = VIEW_SHAPE[1] // 2`. -/
def EGO_COL : Nat := VIEW_SHAPE.2 / 2

/-- The ego marker character `EGO = 'E'`. -/
def EGO : Char := 'E'

/-- An observation frame (`features['images']`): a 2D grid of encoded
`(object, color, door_state)` index triples. -/
def Image : Type := List (List (Nat × Nat × Nat))

/-- `location_descriptors(image, r, c)`: resolve the three encoded indices of
`image[r, c]` through the fixed vocabularies; index lookup failures
propagate as `IndexError`. -/
def location_descriptors (image : Image) (r c : Nat) :
    Except PyErr (String × String × String) := do
  let row ← pyGetNat image r
  let cell ← pyGetNat row c
  let object ← pyGetNat OBJECTS cell.1
  let color ← pyGetNat COLORS cell.2.1
  let door ← pyGetNat DOOR_STATES cell.2.2
  return (object, color, door)

/-- `location_string(image, r, c)`: the description phrase of `image[r, c]`. -/
def location_string (image : Image) (r c : Nat) : Except PyErr String := do
  let (object, color, door) ← location_descriptors image r c
  if object = "unseen" then
    return "unseen"
  else if object = "empty" ∨ object = "floor" then
    return "empty"
  else if object = "door" then
    return door ++ " " ++ color ++ " " ++ object
  else
    return color ++ " " ++ object

/-- One `Counter` increment: bump the count of key `s`, appending a fresh
`(s, 1)` entry at the end when `s` is not yet a key (Python `Counter`
preserves first-seen key order). -/
def bump (l : List (String × Nat)) (s : String) : List (String × Nat) :=
  match l with
  | [] => [(s, 1)]
  | (k, n) :: rest => if k = s then (k, n + 1) :: rest else (k, n) :: bump rest s

/-- The `Counter` tally of the loop `for i, j in region: entities[entry] += 1`,
as the list `entities.items()` in first-seen key order. -/
def tally (phrases : List String) : List (String × Nat) :=
  phrases.foldl bump []

/-- The sort key of line 98: `1 if 'wall' in x else 0` where `x` is the
`(entity, count)` *tuple*, so Python's `in` tests equality of `'wall'`
against the tuple's elements; `'wall'` never equals the integer count, hence
the key is 1 exactly when the phrase is the exact string `"wall"`. -/
def wallKey (x : String × Nat) : Nat :=
  if x.1 = "wall" then 1 else 0

/-- `sorted(list(entities.items()), key=...)`: Python's `sorted` is a stable
sort, and `wallKey` takes only the values 0 and 1, so the stable sort is the
key-0 items in original order followed by the key-1 items in original
order. -/
def sortedWallsLast (l : List (String × Nat)) : List (String × Nat) :=
  l.filter (fun x => wallKey x = 0) ++ l.filter (fun x => ¬ wallKey x = 0)

/-- The clause built for one `(entity, count)` item in the description loop
(lines 102–106): `"{count} {entity}{plural}"` for `count > 1` with plural
suffix `es` when the phrase contains `box` and `s` otherwise, and
`"a {entity}"` for `count == 1`. -/
def clauseOf (ec : String × Nat) : String :=
  if ec.2 > 1 then
    toString ec.2 ++ " " ++ ec.1 ++ (if pyIn "box" ec.1 then "es" else "s")
  else
    "a " ++ ec.1

/-- Lines 109–112: join all but the last clause with `", "` and append
`" and "` plus the last clause; a single clause is used verbatim;
`description[0]` on an empty clause list raises `IndexError`. -/
def joinClauses : List String → Except PyErr String
  | [] => .error .indexError
  | [d] => .ok d
  | d :: ds =>
    .ok (", ".intercalate ((d :: ds).dropLast) ++ " and " ++ (d :: ds).getLast (by simp))

/-- Lines 113–114: `tail[0]` raises `IndexError` on an empty tail; the
linking verb is `is` when the first character is `'a'`, else `are`; the
sentence is `"{verb} {tail}."`. -/
def finishSentence (tail : String) : Except PyErr String :=
  match tail.data with
  | [] => .error .indexError
  | ch :: _ => .ok ((if ch = 'a' then "is" else "are") ++ " " ++ tail ++ ".")

/-- The body of `region_description` after the tally (lines 94–114), as a
function of the list of cell phrases of the region in scan order. -/
def regionDescriptionFromPhrases (phrases : List String) : Except PyErr String :=
  let entities := tally phrases
  if entities.all (fun e => e.1 = "unseen" ∨ e.1 = "empty") then
    .ok (if entities.any (fun e => e.1 = "empty") then
          "the space is empty."
        else
          "the space is not visible.")
  else
    let entities_walls_last := sortedWallsLast entities
    let description :=
      (entities_walls_last.filter
        (fun e => ¬ (e.1 = "unseen" ∨ e.1 = "empty"))).map clauseOf
    do
      let tail ← joinClauses description
      finishSentence tail

/-- `region_description(image, region)`: tally the cell phrases of the region
(propagating vocabulary lookup failures), then compose the sentence. -/
def region_description (image : Image) (region : List (Nat × Nat)) :
    Except PyErr String := do
  let phrases ← region.mapM (fun rc => location_string image rc.1 rc.2)
  regionDescriptionFromPhrases phrases

/-! ## View partitioner -/

/-- Insert `x` into an already-sorted list, keeping earlier elements first
among `le`-ties; `insertionSort` below is therefore a stable sort, which is
what Python's `sorted` guarantees. -/
def orderedInsert {α : Type} (le : α → α → Bool) (x : α) : List α → List α
  | [] => [x]
  | y :: ys => if le y x then y :: orderedInsert le x ys else x :: y :: ys

/-- Stable insertion sort, modelling Python's `sorted`. -/
def insertionSort {α : Type} (le : α → α → Bool) : List α → List α
  | [] => []
  | x :: xs => orderedInsert le x (insertionSort le xs)

/-- Lexicographic comparison of `(label, statement)` pairs, the order
`sorted(list(label_to_statement.items()))` uses on dict items. -/
def pairLe (a b : Char × String) : Bool :=
  a.1 < b.1 ∨ (a.1 = b.1 ∧ (a.2 < b.2 ∨ a.2 = b.2))

/-- Python dict lookup `label_to_statement[label]`: `KeyError` when the label
has no entry. -/
def lookupLabel (d : List (Char × String)) (k : Char) : Except PyErr String :=
  match d.lookup k with
  | some v => .ok v
  | none => .error .keyError

/-- The `cardinal_diagonal` template of `EGO_VIEW_ENCODINGS`, after
`inspect.cleandoc(...).split('\n')` (which strips the leading blank line and
the common indentation of the triple-quoted literal). -/
def cardinalDiagonalTemplate : List String :=
  [ "6663777",
    "6663777",
    "6663777",
    "6663777",
    "6663777",
    "6660777",
    "441E255" ]

/-- The `cardinal_diagonal` label-to-statement dict, as an association list
in dict insertion order. -/
def cardinalDiagonalLabelMap : List (Char × String) :=
  [ ('0', "Directly front"),
    ('1', "Directly left"),
    ('2', "Directly right"),
    ('3', "Farther front"),
    ('4', "Farther left"),
    ('5', "Farther right"),
    ('6', "Farther front left"),
    ('7', "Farther front right") ]

/-- The registry `EGO_VIEW_ENCODINGS`. -/
def EGO_VIEW_ENCODINGS : List (String × (List String × List (Char × String))) :=
  [("cardinal_diagonal", (cardinalDiagonalTemplate, cardinalDiagonalLabelMap))]

/-- All `(statement, (r, c))` pairs scanned by the template loop of
`make_view_partition`, in scan order, skipping the ego marker; a row shorter
than row 0 raises `IndexError`, a label missing from the map raises
`KeyError`. -/
def scanTemplate (lines : List String) (labelMap : List (Char × String)) (n m : Nat) :
    Except PyErr (List (String × (Nat × Nat))) :=
  (List.range n).foldlM (fun acc r => do
    let line ← pyGetNat lines r
    (List.range m).foldlM (fun acc c => do
      let label ← pyGetNat line.data c
      if label = EGO then
        return acc
      else do
        let statement ← lookupLabel labelMap label
        return acc ++ [(statement, (r, c))]) acc) []

/-- `make_view_partition(view_encoding)`: look the encoding up in the
registry (`KeyError` when absent), clean and split the template, assert its
shape equals `VIEW_SHAPE` (`AssertionError` otherwise), scan every cell
grouping coordinates by statement into an insertion-ordered `defaultdict`,
and emit `(statement, coords)` pairs sorted by the `(label, statement)` dict
items.  Since `defaultdict` grouping keeps per-key scan order, the group of
a statement is the scan list filtered to that statement. -/
def make_view_partition (view_encoding : String) :
    Except PyErr (List (String × List (Nat × Nat))) := do
  let (encoding_labels, label_to_statement) ←
    match EGO_VIEW_ENCODINGS.lookup view_encoding with
    | some v => Except.ok v
    | none => Except.error PyErr.keyError
  match encoding_labels with
  | [] => .error .indexError
  | line0 :: _ =>
    let n := encoding_labels.length
    let m := line0.length
    if (n, m) = VIEW_SHAPE then do
      let scanned ← scanTemplate encoding_labels label_to_statement n m
      let sortedItems := insertionSort pairLe label_to_statement
      return sortedItems.map (fun ls =>
        (ls.2, (scanned.filter (fun src => src.1 = ls.2)).map (fun src => src.2)))
    else
      .error .assertionError

/-! ## Frame describer -/

/-- The `description` list built by `image_description` (line 119 and the
loop of lines 121–123): the fixed opening sentence, then for each
`(statement, region)` pair of the partition the statement followed by that
region's description. -/
def imageDescriptionParts (image : Image)
    (view_partition : List (String × List (Nat × Nat))) :
    Except PyErr (List String) := do
  let pieces ← view_partition.mapM (fun sr => do
    let d ← region_description image sr.2
    return [sr.1, d])
  return "You are in a room." :: pieces.flatten

/-- `image_description(image, view_partition)`: the parts joined with single
spaces (`' '.join(description)`). -/
def image_description (image : Image)
    (view_partition : List (String × List (Nat × Nat))) : Except PyErr String := do
  let parts ← imageDescriptionParts image view_partition
  return " ".intercalate parts

/-! ## Prompt builder -/

/-- Modelled from the spec: one timestep record of the external
`TaskSequence` abstraction (`datasets.formats.task_sequence`, not under
`src/`) — it exposes an observation frame (`features['images']`) and an
action label name (`actions['name']`). -/
structure TaskFrame where
  image : Image
  action : String

/-- Modelled from the spec: the external `TaskSequence` abstraction — an
ordered list of timestep records, exposed through its `sequence` attribute,
consumed read-only. -/
structure TaskSequence where
  sequence : List TaskFrame

/-- The inventory scan of `TaskSequencePromptBuilder.__init__` (lines
133–141) as the source writes it: the loop header is
`for frame in range(sequence.sequence)`, which applies Python's `range` to
the *list* of frames; `range` requires integer arguments, so this raises
`TypeError` before the loop body ever runs, for every sequence.  (Even with
the loop fixed, the body's `location_string(frame.features['images'])` omits
the row/column arguments and would also raise `TypeError` at the first
`pickup`.) -/
def initInventoryHistory (_sequence : TaskSequence) :
    Except PyErr (List (Option String)) :=
  .error .typeError

/-- Modelled from the spec: the intended inventory scan that lines 133–141
describe — scan the actions front to back starting empty-handed; `pickup`
sets the current item to the frame's designated inventory-cell description
(the coordinate is left implicit by the source, so the description is taken
abstractly through `invDesc`); `drop` clears it; every other action leaves
it unchanged; one entry is recorded per timestep. -/
def inventoryHistorySpec (invDesc : TaskFrame → String) (s : TaskSequence) :
    List (Option String) :=
  (s.sequence.foldl (fun acc frame =>
    let cur : Option String :=
      if frame.action = "pickup" then some (invDesc frame)
      else if frame.action = "drop" then none
      else acc.2
    (acc.1 ++ [cur], cur)) (([], none) : List (Option String) × Option String)).1

/-- The state of a `TaskSequencePromptBuilder`: the stored sequence, the view
partition, and the precomputed `inventory_history`. -/
structure PromptBuilderState where
  sequence : TaskSequence
  view_partition : List (String × List (Nat × Nat))
  inventory_history : List (Option String)

/-- Python truthiness of an inventory entry (`if self.inventory_history[timestamp]:`):
`None` and the empty string are falsy. -/
def pyTruthy (v : Option String) : Bool :=
  match v with
  | none => false
  | some s => ¬ s = ""

/-- `TaskSequencePromptBuilder.build_prompt(timestamp)` (lines 143–151):
index the sequence (Python `int` indexing — negative indices wrap,
out-of-range raises `IndexError`), describe the frame, then append exactly
one inventory sentence.  When the trace entry at the timestamp is truthy the
f-string reads `self.inventory_item`, an attribute never assigned anywhere
in the class, so Python raises `AttributeError`; otherwise the sentence is
`"You are not carrying anything."`. -/
def build_prompt (b : PromptBuilderState) (timestamp : Int) : Except PyErr String := do
  let frame ← pyGet b.sequence.sequence timestamp
  let desc ← image_description frame.image b.view_partition
  let inv ← pyGet b.inventory_history timestamp
  if pyTruthy inv then
    .error .attributeError
  else
    return desc ++ " " ++ "You are not carrying anything."

/-! ## The partition property and concrete example inputs -/

/-- `parts` is a true partition of the non-ego cells of the egocentric view:
every in-range non-ego cell occurs exactly once across all regions, the ego
cell occurs in no region, and every listed coordinate is in range. -/
def isTruePartitionOfNonEgoCells (parts : List (String × List (Nat × Nat))) : Prop :=
  (∀ r, r < VIEW_SHAPE.1 → ∀ c, c < VIEW_SHAPE.2 → ¬ (r = EGO_ROW ∧ c = EGO_COL) →
    ((parts.map Prod.snd).flatten.count (r, c) = 1))
  ∧ (parts.map Prod.snd).flatten.count (EGO_ROW, EGO_COL) = 0
  ∧ ∀ rc ∈ (parts.map Prod.snd).flatten,
      rc.1 < VIEW_SHAPE.1 ∧ rc.2 < VIEW_SHAPE.2

/-- The value `make_view_partition('cardinal_diagonal')` computes. -/
def cardinalPartition : List (String × List (Nat × Nat)) :=
  [ ("Directly front", [(5, 3)]),
    ("Directly left", [(6, 2)]),
    ("Directly right", [(6, 4)]),
    ("Farther front", [(0, 3), (1, 3), (2, 3), (3, 3), (4, 3)]),
    ("Farther left", [(6, 0), (6, 1)]),
    ("Farther right", [(6, 5), (6, 6)]),
    ("Farther front left",
      [(0, 0), (0, 1), (0, 2), (1, 0), (1, 1), (1, 2), (2, 0), (2, 1), (2, 2),
       (3, 0), (3, 1), (3, 2), (4, 0), (4, 1), (4, 2), (5, 0), (5, 1), (5, 2)]),
    ("Farther front right",
      [(0, 4), (0, 5), (0, 6), (1, 4), (1, 5), (1, 6), (2, 4), (2, 5), (2, 6),
       (3, 4), (3, 5), (3, 6), (4, 4), (4, 5), (4, 6), (5, 4), (5, 5), (5, 6)]) ]

/-- A 1×2 frame whose cells decode to `grey wall` and `red ball`
(`OBJECTS[2] = wall`, `COLORS[5] = grey`, `OBJECTS[6] = ball`,
`COLORS[0] = red`). -/
def wallBallImage : Image := [[(2, 5, 0), (6, 0, 0)]]

/-- A 1×2 frame whose cells both decode to `red box` (`OBJECTS[7] = box`). -/
def twoBoxesImage : Image := [[(7, 0, 0), (7, 0, 0)]]

/-- A 1×3 frame whose cells all decode to `blue key`
(`OBJECTS[5] = key`, `COLORS[2] = blue`). -/
def threeKeysImage : Image := [[(5, 2, 0), (5, 2, 0), (5, 2, 0)]]

/-- A 1×2 frame whose cells decode to `unseen` and `empty`. -/
def unseenEmptyImage : Image := [[(0, 0, 0), (1, 0, 0)]]

/-- A 1×1 frame whose only cell decodes to `red ball`. -/
def redBallImage : Image := [[(6, 0, 0)]]

/-- The 1-region partition of the spec's end-to-end scenario. -/
def directlyFrontPartition : List (String × List (Nat × Nat)) :=
  [("Directly front", [(0, 0)])]

/-- A five-step sequence with actions `[move, pickup, move, drop, move]`
whose pickup-timestep frame decodes to `red ball` at cell `(0, 0)`. -/
def exampleSequence : TaskSequence :=
  ⟨[ ⟨[[(1, 0, 0)]], "move"⟩,
     ⟨redBallImage, "pickup"⟩,
     ⟨[[(1, 0, 0)]], "move"⟩,
     ⟨[[(1, 0, 0)]], "drop"⟩,
     ⟨[[(1, 0, 0)]], "move"⟩ ]⟩

/-- A designated inventory-cell convention for the example: the description
of cell `(0, 0)` of the frame. -/
def exampleInvDesc (f : TaskFrame) : String :=
  match location_string f.image 0 0 with
  | .ok s => s
  | .error _ => ""

/-- A 1-frame prompt-builder state whose agent is empty-handed. -/
def emptyHandedBuilder : PromptBuilderState :=
  ⟨⟨[⟨redBallImage, "move"⟩]⟩, directlyFrontPartition, [none]⟩

/-- A 1-frame prompt-builder state whose inventory trace records a held
`red ball`. -/
def carryingBuilder : PromptBuilderState :=
  ⟨⟨[⟨redBallImage, "move"⟩]⟩, directlyFrontPartition, [some "red ball"]⟩

/-! ## Helper lemmas -/

/-- Indexing a list at its own length raises `IndexError`. -/
theorem pyGet_at_length {α : Type} (l : List α) (n : Nat) (h : l.length = n) :
    pyGet l (n : Int) = .error .indexError := by
  subst h
  unfold pyGet
  split
  case isTrue hc =>
    exfalso
    unfold pyIndex at hc
    rw [if_neg (by omega : ¬ ((l.length : Int) < 0))] at hc
    omega
  case isFalse hc => rfl

/-- On a nonempty list, Python index `-1` accesses the same element as index
`length - 1`. -/
theorem pyGet_neg_one {α : Type} (l : List α) (n : Nat) (h : l.length = n) (hn : 0 < n) :
    pyGet l (-1) = pyGet l ((n : Int) - 1) := by
  subst h
  have h1 : pyIndex l (-1) = (l.length : Int) - 1 := by
    unfold pyIndex
    rw [if_pos (by omega : (-1 : Int) < 0)]
    omega
  have h2 : pyIndex l ((l.length : Int) - 1) = (l.length : Int) - 1 := by
    unfold pyIndex
    rw [if_neg (by omega : ¬ ((l.length : Int) - 1 < 0))]
  unfold pyGet
  rw [dif_pos (by rw [h1]; omega : 0 ≤ pyIndex l (-1) ∧ pyIndex l (-1) < (l.length : Int)),
      dif_pos (by rw [h2]; omega : 0 ≤ pyIndex l ((l.length : Int) - 1) ∧
        pyIndex l ((l.length : Int) - 1) < (l.length : Int))]
  simp only [h1, h2]

/-- Keys of a counter after one bump: the old keys plus the bumped key. -/
theorem mem_keys_bump (l : List (String × Nat)) (s k : String) :
    k ∈ (bump l s).map Prod.fst ↔ k ∈ l.map Prod.fst ∨ k = s := by
  induction l with
  | nil => simp [bump]
  | cons e rest ih =>
    obtain ⟨q, n⟩ := e
    by_cases h : q = s
    · subst h
      simp only [bump, if_pos rfl]
      simp
      tauto
    · simp only [bump, if_neg h]
      simp only [List.map_cons, List.mem_cons]
      rw [ih]
      tauto

/-- Keys accumulated by the tally fold: the accumulator's keys plus the
scanned phrases. -/
theorem mem_keys_foldl_bump (l : List String) :
    ∀ (acc : List (String × Nat)) (k : String),
      k ∈ (l.foldl bump acc).map Prod.fst ↔ k ∈ acc.map Prod.fst ∨ k ∈ l := by
  induction l with
  | nil => simp
  | cons s rest ih =>
    intro acc k
    simp only [List.foldl_cons]
    rw [ih]
    rw [mem_keys_bump]
    simp only [List.mem_cons]
    tauto

/-- A string is a key of the tally of a phrase list iff it occurs in the
list. -/
theorem mem_keys_tally (k : String) (l : List String) :
    k ∈ (tally l).map Prod.fst ↔ k ∈ l := by
  unfold tally
  rw [mem_keys_foldl_bump]
  simp

/-! ## Claim theorems -/

/-- Claim C1 (code bug): the inventory-trace scan of
`TaskSequencePromptBuilder.__init__` never runs — its loop header applies
Python's `range` to the list of frames, raising `TypeError` at construction
for every sequence, including the claim's own `[move, pickup, move, drop,
move]` example (and the loop body calls `location_string` without row and
column arguments, a second `TypeError`).  The claimed pickup/drop state
machine, modelled from the spec as `inventoryHistorySpec`, would produce
exactly the trace `[none, item, item, none, none]` the claim states. -/
theorem c1_inventory_trace :
    initInventoryHistory exampleSequence = .error .typeError ∧
      inventoryHistorySpec exampleInvDesc exampleSequence =
        [none, some "red ball", some "red ball", none, none] := by
  exact ⟨rfl, by decide⟩

/-- Claim C2 (code bug): when the precomputed trace entry at the queried
timestep holds an item, `build_prompt` reads `self.inventory_item` — an
attribute never assigned anywhere in the class — so it raises
`AttributeError` instead of appending the carrying sentence; the
empty-handed branch works as claimed. -/
theorem c2_prompt_inventory_sentence :
    build_prompt carryingBuilder 0 = .error .attributeError ∧
      build_prompt emptyHandedBuilder 0 =
        .ok "You are in a room. Directly front is a red ball. You are not carrying anything." := by
  exact ⟨by decide, by decide⟩

/-- Claim C3, counterexample: on a 1-frame builder, `build_prompt (-1)`
returns a prompt string instead of failing — Python negative indexing wraps
around, contradicting the claim that timestamp `-1` fails with
`IndexOutOfRange`. -/
theorem c3_boundary_counterexample :
    build_prompt emptyHandedBuilder (-1) =
      .ok "You are in a room. Directly front is a red ball. You are not carrying anything." := by
  decide

/-- Claim C3 as amended: for a builder over a length-`n` sequence (with a
matching-length trace), `build_prompt n` fails with `IndexError`, but
`build_prompt (-1)` does not fail: by Python negative indexing it returns
exactly what `build_prompt (n - 1)` returns; the query succeeds precisely on
Python's valid index range. -/
theorem c3_prompt_boundary (b : PromptBuilderState) (n : Nat)
    (hs : b.sequence.sequence.length = n) (hi : b.inventory_history.length = n)
    (hn : 0 < n) :
    build_prompt b (n : Int) = .error .indexError ∧
      build_prompt b (-1) = build_prompt b ((n : Int) - 1) := by
  constructor
  · unfold build_prompt
    rw [pyGet_at_length b.sequence.sequence n hs]
    rfl
  · unfold build_prompt
    simp only [pyGet_neg_one b.sequence.sequence n hs hn,
      pyGet_neg_one b.inventory_history n hi hn]

/-- Claim C3, witness: the amended boundary behaviour at a concrete 1-frame
builder. -/
theorem c3_prompt_boundary_witness :
    emptyHandedBuilder.sequence.sequence.length = 1 ∧
      emptyHandedBuilder.inventory_history.length = 1 ∧
      (build_prompt emptyHandedBuilder (1 : Int) = .error .indexError ∧
        build_prompt emptyHandedBuilder (-1) = build_prompt emptyHandedBuilder ((1 : Int) - 1)) :=
  ⟨rfl, rfl, c3_prompt_boundary emptyHandedBuilder 1 rfl rfl (by decide)⟩

/-- Claim C4 (code bug): evaluating `region_description` at a region whose
tally lists a wall phrase first shows the wall clause is NOT moved to the
end — the sentence keeps it first.  The sort key of line 98 tests
membership of the string `wall` in the `(entity, count)` tuple rather than
substring containment in the phrase, so `grey wall` gets the same key as
every other phrase and the stable sort reorders nothing, contradicting the
claim and the code's own comment about putting walls at the end. -/
theorem c4_wall_clause_order :
    region_description wallBallImage [(0, 0), (0, 1)] =
      .ok "is a grey wall and a red ball." := by
  decide

/-- Claim C5: every partition `make_view_partition` returns is a true
partition of the non-ego cells of the egocentric view — each in-range
non-ego cell occurs in exactly one region (and exactly once there), the ego
cell occurs in none, and all listed coordinates are in range. -/
theorem c5_view_partition (enc : String) (parts : List (String × List (Nat × Nat)))
    (h : make_view_partition enc = .ok parts) :
    isTruePartitionOfNonEgoCells parts := by
  by_cases henc : enc = "cardinal_diagonal"
  · subst henc
    have hval : make_view_partition "cardinal_diagonal" = .ok cardinalPartition := by decide
    rw [hval] at h
    injection h with h
    subst h
    unfold isTruePartitionOfNonEgoCells
    refine ⟨by decide, by decide, by decide⟩
  · exfalso
    have hb : (enc == "cardinal_diagonal") = false := beq_eq_false_iff_ne.2 henc
    have hlook : EGO_VIEW_ENCODINGS.lookup enc = none := by
      simp [EGO_VIEW_ENCODINGS, List.lookup, hb]
    unfold make_view_partition at h
    rw [hlook] at h
    exact Except.noConfusion h

/-- Claim C5, witness: the concrete `cardinal_diagonal` partition is a true
partition of the non-ego cells. -/
theorem c5_view_partition_witness :
    make_view_partition "cardinal_diagonal" = .ok cardinalPartition ∧
      isTruePartitionOfNonEgoCells cardinalPartition :=
  ⟨by decide, c5_view_partition "cardinal_diagonal" cardinalPartition (by decide)⟩

/-- Claim C6: on a region all of whose cell phrases are `unseen` or `empty`,
`region_description` returns exactly `the space is empty.` when `empty`
occurs at least once and exactly `the space is not visible.` otherwise
(i.e. when every phrase is `unseen`); `empty` takes precedence. -/
theorem c6_unseen_empty_shortcut (image : Image) (region : List (Nat × Nat))
    (phrases : List String)
    (hmap : region.mapM (fun rc => location_string image rc.1 rc.2) = .ok phrases)
    (hall : ∀ p ∈ phrases, p = "unseen" ∨ p = "empty") :
    region_description image region =
      .ok (if "empty" ∈ phrases then "the space is empty."
           else "the space is not visible.") := by
  unfold region_description
  rw [hmap]
  show regionDescriptionFromPhrases phrases = _
  unfold regionDescriptionFromPhrases
  have hkeys : ∀ e ∈ tally phrases, e.1 = "unseen" ∨ e.1 = "empty" := by
    intro e he
    exact hall _ ((mem_keys_tally e.1 phrases).1 (List.mem_map_of_mem Prod.fst he))
  have hallb : ((tally phrases).all fun e => decide (e.1 = "unseen" ∨ e.1 = "empty")) = true := by
    simp only [List.all_eq_true, decide_eq_true_eq]
    exact hkeys
  rw [if_pos hallb]
  have hany : ((tally phrases).any (fun e => decide (e.1 = "empty")) = true) ↔
      "empty" ∈ phrases := by
    simp only [List.any_eq_true, decide_eq_true_eq]
    constructor
    · rintro ⟨e, he, h1⟩
      exact (mem_keys_tally "empty" phrases).1 (h1 ▸ List.mem_map_of_mem Prod.fst he)
    · intro h
      obtain ⟨e, he, hfst⟩ := List.mem_map.1 ((mem_keys_tally "empty" phrases).2 h)
      exact ⟨e, he, hfst⟩
  by_cases hemp : "empty" ∈ phrases
  · rw [if_pos (hany.2 hemp), if_pos hemp]
  · rw [if_neg (fun hb => hemp (hany.1 hb)), if_neg hemp]

/-- Claim C6, witness: a concrete region with one `unseen` and one `empty`
cell describes as `the space is empty.`. -/
theorem c6_unseen_empty_shortcut_witness :
    ([(0, 0), (0, 1)] : List (Nat × Nat)).mapM
        (fun rc => location_string unseenEmptyImage rc.1 rc.2) =
      .ok ["unseen", "empty"] ∧
    (∀ p ∈ (["unseen", "empty"] : List String), p = "unseen" ∨ p = "empty") ∧
    region_description unseenEmptyImage [(0, 0), (0, 1)] =
      .ok (if "empty" ∈ (["unseen", "empty"] : List String) then "the space is empty."
           else "the space is not visible.") :=
  ⟨by decide, by decide,
    c6_unseen_empty_shortcut unseenEmptyImage [(0, 0), (0, 1)] ["unseen", "empty"]
      (by decide) (by decide)⟩

/-- Claim C7: a phrase tallied with count greater than 1 renders as the
count, a space, the phrase and plural suffix `s` — or `es` when the phrase
contains `box`; a count-1 phrase renders as `a` plus the phrase; in
particular two identical box phrases render `2 boxes` and three identical
key phrases render `3 keys` inside the region sentence. -/
theorem c7_pluralization :
    (∀ (entity : String) (k : Nat),
        clauseOf (entity, k + 2) =
          toString (k + 2) ++ " " ++ entity ++ (if pyIn "box" entity then "es" else "s"))
    ∧ (∀ entity : String, clauseOf (entity, 1) = "a " ++ entity)
    ∧ region_description twoBoxesImage [(0, 0), (0, 1)] = .ok "are 2 red boxes."
    ∧ region_description threeKeysImage [(0, 0), (0, 1), (0, 2)] = .ok "are 3 blue keys." := by
  refine ⟨?_, fun entity => rfl, by decide, by decide⟩
  intro entity k
  show (if k + 2 > 1 then _ else _) = _
  rw [if_pos (by omega : k + 2 > 1)]

/-- Claim C8: the frame description starts with the fixed sentence
`You are in a room.` and is the space-join of that sentence with each
region's statement and description in partition order; on the 1-region
partition with a red-ball cell it is exactly
`You are in a room. Directly front is a red ball.`. -/
theorem c8_frame_description :
    (∀ (image : Image) (vp : List (String × List (Nat × Nat))) (parts : List String),
        imageDescriptionParts image vp = .ok parts →
        parts.head? = some "You are in a room." ∧
          image_description image vp = .ok (" ".intercalate parts))
    ∧ image_description redBallImage directlyFrontPartition =
        .ok "You are in a room. Directly front is a red ball." := by
  constructor
  · intro image vp parts h
    constructor
    · unfold imageDescriptionParts at h
      cases hm : vp.mapM (fun sr => do
          let d ← region_description image sr.2
          pure [sr.1, d]) with
      | error e =>
        rw [hm] at h
        exact Except.noConfusion h
      | ok pieces =>
        rw [hm] at h
        injection h with h
        rw [← h]
        rfl
    · unfold image_description
      rw [h]
      rfl
  · decide

/-- Claim C8, witness: the parts list and final string of the concrete
end-to-end scenario. -/
theorem c8_frame_description_witness :
    imageDescriptionParts redBallImage directlyFrontPartition =
      .ok ["You are in a room.", "Directly front", "is a red ball."] ∧
    (["You are in a room.", "Directly front", "is a red ball."].head? =
        some "You are in a room." ∧
      image_description redBallImage directlyFrontPartition =
        .ok (" ".intercalate ["You are in a room.", "Directly front", "is a red ball."])) :=
  ⟨by decide,
    c8_frame_description.1 redBallImage directlyFrontPartition
      ["You are in a room.", "Directly front", "is a red ball."] (by decide)⟩

/-- Claim C9, counterexample: on an empty region `region_description`
returns the string `the space is not visible.` instead of failing — the
empty tally passes the all-unseen/empty subset check, so no guard fires,
contradicting the claim of an `EmptyRegion` error. -/
theorem c9_empty_region_counterexample :
    region_description redBallImage [] = .ok "the space is not visible." := by
  decide

/-- Claim C9 as amended: on a region with zero coordinates,
`region_description` does not fail; for every frame it returns exactly
`the space is not visible.` (the empty tally takes the all-unseen/empty
shortcut with no `empty` occurrence). -/
theorem c9_empty_region (image : Image) :
    region_description image [] = .ok "the space is not visible." := rfl

/-- Claim C10: `build_prompt` is deterministic — it depends only on the
stored sequence, view partition and inventory trace, so two calls with the
same timestamp and unchanged state yield identical results (and hence
identical strings whenever a string is produced); the frame description is
likewise a function of frame and partition only. -/
theorem c10_prompt_determinism (b b' : PromptBuilderState) (t : Int)
    (h1 : b.sequence = b'.sequence) (h2 : b.view_partition = b'.view_partition)
    (h3 : b.inventory_history = b'.inventory_history) :
    build_prompt b t = build_prompt b' t := by
  obtain ⟨s, vp, ih⟩ := b
  obtain ⟨s', vp', ih'⟩ := b'
  simp only at h1 h2 h3
  subst h1
  subst h2
  subst h3
  rfl

/-- Claim C10, witness: two calls at timestep 0 on the same concrete builder
state agree. -/
theorem c10_prompt_determinism_witness :
    emptyHandedBuilder.sequence = emptyHandedBuilder.sequence ∧
      emptyHandedBuilder.view_partition = emptyHandedBuilder.view_partition ∧
      emptyHandedBuilder.inventory_history = emptyHandedBuilder.inventory_history ∧
      build_prompt emptyHandedBuilder 0 = build_prompt emptyHandedBuilder 0 :=
  ⟨rfl, rfl, rfl, c10_prompt_determinism emptyHandedBuilder emptyHandedBuilder 0 rfl rfl rfl⟩

end BabyaiEnvDescription
